import Mathlib

/-!
# go-logger: `log/log.go`

A shallow embedding of `Logger.setupLogging` (log/log.go, lines 66-132) and of the
data it works on, followed by the properties of the routine.

Modelling conventions

* A Go `string` is a Lean `String`; Go compares strings byte by byte, which on
  UTF-8 text is the lexicographic order of the code points (`stringLE`).
* A Go `map[string]struct{}` is the list of its distinct keys (`StringSet`).
  `for v := range m` visits every key once in an order the runtime picks: the
  order is a parameter of the model (`RangeOrder`), one per `range` loop.
* `sort.Strings` is a sort by `stringLE`.
* `zap.Config.Build` belongs to the zap library: it is a parameter `build` of
  the model, returning Go's pair `(*zap.Logger, error)` (`BuildResult`).
* The package variable `grpc.EnableTracing` and the records handed to zap
  loggers are the process-wide state `Process`.
-/

namespace GoLogger

/-! ## Data model -/

/-- Constant `StdErrLogOutput` (log.go:16). -/
def StdErrLogOutput : String := "stderr"

/-- Constant `StdOutLogOutput` (log.go:17). -/
def StdOutLogOutput : String := "stdout"

/-- Type `Config` (log.go:30-40). -/
structure Config where
  Outputs : List String
  Debug : Bool
  deriving DecidableEq, Repr

/-- The two `zapcore.Level` values that log.go uses: `zap.DebugLevel` and `zap.InfoLevel`. -/
inductive Level where
  | DebugLevel
  | InfoLevel
  deriving DecidableEq, Repr

/-- Value of `zap.NewProductionEncoderConfig()`; its contents belong to zap. -/
inductive EncoderConfig where
  | production
  deriving DecidableEq, Repr

/-- Type `zap.SamplingConfig`, the fields set in log.go:76-79. -/
structure SamplingConfig where
  Initial : Nat
  Thereafter : Nat
  deriving DecidableEq, Repr

/-- Type `zap.Config`, the fields set in log.go:73-85. -/
structure ZapConfig where
  Level : Level
  Development : Bool
  Sampling : Option SamplingConfig
  Encoding : String
  EncoderConfig : EncoderConfig
  OutputPaths : List String
  ErrorOutputPaths : List String
  deriving DecidableEq, Repr

/-- A non-nil `*zap.Logger`, known by its identity. -/
structure ZapLogger where
  id : Nat
  deriving DecidableEq, Repr

/-- A non-nil Go `error`: its message and, for an error that wraps another
one, the wrapped error. -/
inductive GoError where
  | leaf (msg : String)
  | wrap (msg : String) (cause : GoError)
  deriving DecidableEq, Repr

/-- The errors below `e` in its chain: the error it wraps, the error that one wraps, and so on. -/
def GoError.causes : GoError → List GoError
  | .leaf _ => []
  | .wrap _ c => c :: c.causes

/-- Error `e` wraps error `c`: `c` lies below `e` in its chain. -/
def GoError.wraps (e c : GoError) : Prop := c ∈ e.causes

instance GoError.wraps.decidable (e c : GoError) : Decidable (e.wraps c) :=
  inferInstanceAs (Decidable (c ∈ e.causes))

/-- The errors that a returned `error` value wraps; a nil error wraps none. -/
def wrappedCauses : Option GoError → List GoError
  | none => []
  | some e => e.causes

/-- Type `Logger` (log.go:20-28); a nil pointer is `none`. -/
structure Logger where
  logger : Option ZapLogger
  loggerConfig : Option ZapConfig
  Conf : Config
  deriving DecidableEq, Repr

/-- Result of `lcfg.Build()`, Go's pair `(*zap.Logger, error)`: either a logger
and a nil error, or some pointer (zap returns nil) and a non-nil error. -/
inductive BuildResult where
  | ok (logger : ZapLogger)
  | fail (logger : Option ZapLogger) (err : GoError)
  deriving DecidableEq, Repr

/-- First component of the pair that `Build` returns. -/
def BuildResult.logger : BuildResult → Option ZapLogger
  | .ok lg => some lg
  | .fail lg _ => lg

/-- Second component of the pair that `Build` returns (`none` is a nil error). -/
def BuildResult.err : BuildResult → Option GoError
  | .ok _ => none
  | .fail _ e => some e

/-- One record handed to a zap logger. -/
structure Record where
  logger : ZapLogger
  level : Level
  msg : String
  deriving DecidableEq, Repr

/-- Process-wide state that `setupLogging` touches outside the `Logger`:
the variable `grpc.EnableTracing` and the records emitted so far. -/
structure Process where
  grpcEnableTracing : Bool
  records : List Record
  deriving DecidableEq, Repr

/-! ## Strings, sets of strings, sorting -/

/-- Go's `a <= b` on strings. -/
def stringLE (a b : String) : Prop := a.toList ≤ b.toList

instance stringLE.decidable : DecidableRel stringLE :=
  fun a b => inferInstanceAs (Decidable (a.toList ≤ b.toList))

/-- Function `sort.Strings`. -/
def sortStrings (xs : List String) : List String := xs.insertionSort stringLE

/-- A `map[string]struct{}`: its keys, each once. -/
abbrev StringSet := List String

/-- Statement `m[k] = struct{}{}`. -/
def StringSet.put (m : StringSet) (k : String) : StringSet :=
  if k ∈ m then m else m ++ [k]

/-- Order in which one `for v := range m` loop visits the keys of a map:
some rearrangement of the keys. -/
structure RangeOrder where
  order : List String → List String
  perm : ∀ ks, (order ks).Perm ks

/-- The keys in the order they were first stored. -/
def RangeOrder.stored : RangeOrder := ⟨fun ks => ks, fun _ => List.Perm.refl _⟩

/-- The keys in the opposite of the order they were first stored. -/
def RangeOrder.reversed : RangeOrder := ⟨List.reverse, fun ks => List.reverse_perm ks⟩

/-! ## `setupLogging` -/

/-- Lines 67-70: the local copy `conf` of `l.Conf`, with the default output. -/
def localConf (l : Logger) : Config :=
  let conf := l.Conf
  if conf.Outputs.length = 0 then { conf with Outputs := [StdOutLogOutput] } else conf

/-- Lines 73-85: the initial value of `lcfg`. -/
def initialLcfg : ZapConfig :=
  { Level := Level.InfoLevel
    Development := false
    Sampling := some { Initial := 100, Thereafter := 100 }
    Encoding := "json"
    EncoderConfig := EncoderConfig.production
    OutputPaths := []
    ErrorOutputPaths := [] }

/-- Lines 89-101: the body of the loop over `conf.Outputs`, on the pair
`(outputPaths, errOutputPaths)`. -/
def addOutput (m : StringSet × StringSet) (v : String) : StringSet × StringSet :=
  if v = StdErrLogOutput then
    (m.1.put StdErrLogOutput, m.2.put StdErrLogOutput)
  else if v = StdOutLogOutput then
    (m.1.put StdOutLogOutput, m.2.put StdOutLogOutput)
  else
    (m.1.put v, m.2.put v)

/-- Lines 87-102: the two maps after the loop over `conf.Outputs`. -/
def collectOutputs (outputs : List String) : StringSet × StringSet :=
  outputs.foldl addOutput ([], [])

/-- Lines 104-109: `for v := range m { paths = append(paths, v) }`. -/
def appendKeys (r : RangeOrder) (paths : List String) (m : StringSet) : List String :=
  (r.order m).foldl (fun acc v => acc ++ [v]) paths

/-- Lines 73-114: the value of `lcfg` when `Build` is called, for the local
copy `conf`; `r₁` and `r₂` are the orders of the two `range` loops. -/
def assemble (r₁ r₂ : RangeOrder) (conf : Config) : ZapConfig :=
  let lcfg := initialLcfg
  let maps := collectOutputs conf.Outputs
  let lcfg := { lcfg with OutputPaths := appendKeys r₁ lcfg.OutputPaths maps.1 }
  let lcfg := { lcfg with ErrorOutputPaths := appendKeys r₂ lcfg.ErrorOutputPaths maps.2 }
  let lcfg := { lcfg with OutputPaths := sortStrings lcfg.OutputPaths }
  let lcfg := { lcfg with ErrorOutputPaths := sortStrings lcfg.ErrorOutputPaths }
  if conf.Debug then { lcfg with Level := Level.DebugLevel } else lcfg

/-- The settings `lcfg` that a call of `setupLogging` on `l` hands to `Build`. -/
def lcfgOf (r₁ r₂ : RangeOrder) (l : Logger) : ZapConfig :=
  assemble r₁ r₂ (localConf l)

/-- Method `(*Logger).setupLogging` (log.go:66-132). Returns the logger after
the call, the process state after the call and the returned `error`. -/
def setupLogging (build : ZapConfig → BuildResult) (r₁ r₂ : RangeOrder)
    (l : Logger) (p : Process) : Logger × Process × Option GoError :=
  let conf := localConf l
  let lcfg := assemble r₁ r₂ conf
  -- line 115
  let p := if conf.Debug then { p with grpcEnableTracing := true } else p
  -- line 119: `l.logger, err = lcfg.Build()`
  match build lcfg with
  | .fail lg err =>
    -- lines 120-122
    ({ l with logger := lg }, p, some err)
  | .ok lg =>
    -- line 124; the test of lines 126-128 repeats that of line 120 and never fires
    let l := { l with logger := some lg, loggerConfig := some lcfg }
    -- line 130: `l.logger.Info("success to init logger of zap")`
    let p := { p with
      records := p.records ++ [⟨lg, Level.InfoLevel, "success to init logger of zap"⟩] }
    (l, p, none)

/-- Function `NewDefault` (log.go:45-57); `none` is the exit through `log.Fatalf`. -/
def NewDefault (build : ZapConfig → BuildResult) (r₁ r₂ : RangeOrder) (p : Process) :
    Option (Logger × Process) :=
  let l : Logger := { logger := none, loggerConfig := none,
                      Conf := { Outputs := ["stdout"], Debug := false } }
  match setupLogging build r₁ r₂ l p with
  | (_, _, some _) => none
  | (l, p, none) => some (l, p)

/-! ## Concrete inputs used to exercise the definitions -/

/-- A `Build` that opens the standard streams only: any other path is a file
it cannot open. The logger it returns is numbered by the count of its paths. -/
def buildStdOnly (cfg : ZapConfig) : BuildResult :=
  if cfg.OutputPaths.all (fun s => s = StdErrLogOutput || s = StdOutLogOutput) then
    .ok ⟨cfg.OutputPaths.length⟩
  else
    .fail none (.leaf "couldn't open sink")

/-- A `Build` like `buildStdOnly` whose error has the shape of zap's: the
message about the sink, wrapping the error of the failed `open`. -/
def buildWrapping (cfg : ZapConfig) : BuildResult :=
  if cfg.OutputPaths.all (fun s => s = StdErrLogOutput || s = StdOutLogOutput) then
    .ok ⟨cfg.OutputPaths.length⟩
  else
    .fail none (.wrap "couldn't open sink" (.leaf "no such file or directory"))

/-- The process state at start: tracing off, nothing emitted. -/
def Process.start : Process := ⟨false, []⟩

/-- The logger that `NewDefault` yields at start when `Build` is `buildStdOnly`. -/
def defaultLogger : Logger :=
  match NewDefault buildStdOnly RangeOrder.stored RangeOrder.stored Process.start with
  | some (l, _) => l
  | none => ⟨none, none, ⟨[], false⟩⟩

/-- The default logger after its `Conf` was pointed at a file in a directory
that does not exist. -/
def fileLogger : Logger :=
  { defaultLogger with Conf := ⟨["/nonexistent/server.log"], false⟩ }

/-! ## Auxiliary facts -/

theorem stringLE_iff_le (a b : String) : stringLE a b ↔ a ≤ b :=
  String.le_iff_toList_le.symm

instance stringLE.isTotal : IsTotal String stringLE :=
  ⟨fun a b => le_total a.toList b.toList⟩

instance stringLE.isTrans : IsTrans String stringLE :=
  ⟨fun a b c (hab : a.toList ≤ b.toList) (hbc : b.toList ≤ c.toList) => le_trans hab hbc⟩

instance stringLE.isAntisymm : IsAntisymm String stringLE :=
  ⟨fun _ _ (hab : _ ≤ _) (hba : _ ≤ _) => String.ext (le_antisymm hab hba)⟩

theorem sortStrings_sorted (xs : List String) : (sortStrings xs).Sorted stringLE :=
  List.sorted_insertionSort stringLE xs

theorem sortStrings_perm (xs : List String) : (sortStrings xs).Perm xs :=
  List.perm_insertionSort stringLE xs

/-- Sorting does not depend on the order of the input. -/
theorem sortStrings_congr {xs ys : List String} (h : xs.Perm ys) :
    sortStrings xs = sortStrings ys :=
  List.eq_of_perm_of_sorted
    (((sortStrings_perm xs).trans h).trans (sortStrings_perm ys).symm)
    (sortStrings_sorted xs) (sortStrings_sorted ys)

theorem appendKeys_eq (r : RangeOrder) (paths : List String) (m : StringSet) :
    appendKeys r paths m = paths ++ r.order m := by
  unfold appendKeys
  generalize r.order m = ks
  induction ks generalizing paths with
  | nil => simp
  | cons k ks ih => simp [List.foldl_cons, ih]

theorem mem_put (m : StringSet) (k s : String) : s ∈ m.put k ↔ s ∈ m ∨ s = k := by
  unfold StringSet.put
  split
  · constructor
    · exact Or.inl
    · rintro (h | rfl)
      · exact h
      · assumption
  · simp

theorem nodup_put (m : StringSet) (k : String) (h : m.Nodup) : (m.put k).Nodup := by
  unfold StringSet.put
  split
  · exact h
  · rename_i hk
    rw [List.nodup_append]
    refine ⟨h, List.nodup_singleton k, ?_⟩
    intro a ha hb
    rw [List.mem_singleton] at hb
    exact hk (hb ▸ ha)

/-- Every branch of the `switch` stores the key `v` itself in both maps. -/
theorem addOutput_eq (m : StringSet × StringSet) (v : String) :
    addOutput m v = (m.1.put v, m.2.put v) := by
  unfold addOutput
  split
  · rename_i h; rw [h]
  · split
    · rename_i h; rw [h]
    · rfl

theorem foldl_addOutput_same (outs : List String) (m : StringSet) :
    (outs.foldl addOutput (m, m)).1 = (outs.foldl addOutput (m, m)).2 := by
  induction outs generalizing m with
  | nil => rfl
  | cons v vs ih => rw [List.foldl_cons, addOutput_eq]; exact ih _

theorem foldl_addOutput_mem (outs : List String) (m : StringSet × StringSet) (s : String) :
    s ∈ (outs.foldl addOutput m).1 ↔ s ∈ m.1 ∨ s ∈ outs := by
  induction outs generalizing m with
  | nil => simp
  | cons v vs ih =>
    rw [List.foldl_cons, ih, addOutput_eq, List.mem_cons]
    simp only [mem_put]
    tauto

theorem foldl_addOutput_nodup (outs : List String) (m : StringSet × StringSet)
    (h : m.1.Nodup) : (outs.foldl addOutput m).1.Nodup := by
  induction outs generalizing m with
  | nil => exact h
  | cons v vs ih =>
    rw [List.foldl_cons]
    apply ih
    rw [addOutput_eq]
    exact nodup_put _ _ h

/-- The two maps hold the same keys in the same stored order. -/
theorem collectOutputs_same (outs : List String) :
    (collectOutputs outs).1 = (collectOutputs outs).2 :=
  foldl_addOutput_same outs []

theorem collectOutputs_mem (outs : List String) (s : String) :
    s ∈ (collectOutputs outs).1 ↔ s ∈ outs := by
  unfold collectOutputs
  rw [foldl_addOutput_mem]
  simp

theorem collectOutputs_nodup (outs : List String) : (collectOutputs outs).1.Nodup :=
  foldl_addOutput_nodup outs _ List.nodup_nil

theorem assemble_OutputPaths (r₁ r₂ : RangeOrder) (conf : Config) :
    (assemble r₁ r₂ conf).OutputPaths = sortStrings (collectOutputs conf.Outputs).1 := by
  unfold assemble
  split <;> simp only [initialLcfg, appendKeys_eq, List.nil_append] <;>
    exact sortStrings_congr (r₁.perm _)

theorem assemble_ErrorOutputPaths (r₁ r₂ : RangeOrder) (conf : Config) :
    (assemble r₁ r₂ conf).ErrorOutputPaths = sortStrings (collectOutputs conf.Outputs).1 := by
  unfold assemble
  rw [collectOutputs_same]
  split <;> simp only [initialLcfg, appendKeys_eq, List.nil_append] <;>
    exact sortStrings_congr (r₂.perm _)

theorem assemble_Level (r₁ r₂ : RangeOrder) (conf : Config) :
    (assemble r₁ r₂ conf).Level = if conf.Debug then Level.DebugLevel else Level.InfoLevel := by
  unfold assemble
  split <;> rfl

theorem localConf_Outputs (l : Logger) :
    (localConf l).Outputs = if l.Conf.Outputs = [] then [StdOutLogOutput] else l.Conf.Outputs := by
  unfold localConf
  cases h : l.Conf.Outputs <;> simp [h]

theorem localConf_Debug (l : Logger) : (localConf l).Debug = l.Conf.Debug := by
  simp only [localConf]
  split <;> rfl

/-- How `setupLogging` uses `Build`: it is called once, on `lcfgOf r₁ r₂ l`. -/
theorem setupLogging_eq (build : ZapConfig → BuildResult) (r₁ r₂ : RangeOrder)
    (l : Logger) (p : Process) :
    setupLogging build r₁ r₂ l p =
      match build (lcfgOf r₁ r₂ l) with
      | .fail lg err =>
        ({ l with logger := lg },
          if l.Conf.Debug then { p with grpcEnableTracing := true } else p, some err)
      | .ok lg =>
        ({ l with logger := some lg, loggerConfig := some (lcfgOf r₁ r₂ l) },
          { grpcEnableTracing := p.grpcEnableTracing || l.Conf.Debug
            records := p.records ++ [⟨lg, Level.InfoLevel, "success to init logger of zap"⟩] },
          none) := by
  unfold setupLogging lcfgOf
  simp only [localConf_Debug]
  generalize build (assemble r₁ r₂ (localConf l)) = res
  cases res <;> cases l.Conf.Debug <;> simp

theorem lcfgOf_OutputPaths (r₁ r₂ : RangeOrder) (l : Logger) :
    (lcfgOf r₁ r₂ l).OutputPaths = sortStrings (collectOutputs (localConf l).Outputs).1 :=
  assemble_OutputPaths r₁ r₂ _

theorem lcfgOf_ErrorOutputPaths (r₁ r₂ : RangeOrder) (l : Logger) :
    (lcfgOf r₁ r₂ l).ErrorOutputPaths = sortStrings (collectOutputs (localConf l).Outputs).1 :=
  assemble_ErrorOutputPaths r₁ r₂ _

/-- The assembled settings in closed form: they depend on `conf` only. -/
theorem assemble_eq (r₁ r₂ : RangeOrder) (conf : Config) :
    assemble r₁ r₂ conf =
      { initialLcfg with
        Level := if conf.Debug then Level.DebugLevel else Level.InfoLevel
        OutputPaths := sortStrings (collectOutputs conf.Outputs).1
        ErrorOutputPaths := sortStrings (collectOutputs conf.Outputs).1 } := by
  have h₁ := assemble_OutputPaths r₁ r₂ conf
  have h₂ := assemble_ErrorOutputPaths r₁ r₂ conf
  unfold assemble at h₁ h₂ ⊢
  cases hd : conf.Debug <;> simp only [hd] at h₁ h₂ ⊢ <;> simp_all [initialLcfg]

theorem lcfgOf_congr (r₁ r₂ r₃ r₄ : RangeOrder) {l l' : Logger}
    (h : localConf l = localConf l') : lcfgOf r₁ r₂ l = lcfgOf r₃ r₄ l' := by
  unfold lcfgOf
  rw [assemble_eq, assemble_eq r₃ r₄, h]

/-! ## Properties of `setupLogging` -/

/-- C1: for every Config and every iteration order of the two maps, the list
`lcfg.OutputPaths` that setupLogging assembles is sorted in ascending
lexicographic order, holds no string twice, and has exactly the members of the
requested outputs (of `["stdout"]` when none is requested); the outputs
`["stdout", "stdout", "stderr"]` give `["stderr", "stdout"]`. -/
theorem outputPaths_sorted_nodup_members (r₁ r₂ : RangeOrder) (l : Logger) :
    (lcfgOf r₁ r₂ l).OutputPaths.Sorted stringLE ∧
    (lcfgOf r₁ r₂ l).OutputPaths.Nodup ∧
    (∀ s : String, s ∈ (lcfgOf r₁ r₂ l).OutputPaths ↔
      s ∈ (if l.Conf.Outputs = [] then ["stdout"] else l.Conf.Outputs)) ∧
    (∀ (lg : Option ZapLogger) (lc : Option ZapConfig) (d : Bool),
      (lcfgOf r₁ r₂ ⟨lg, lc, ⟨["stdout", "stdout", "stderr"], d⟩⟩).OutputPaths
        = ["stderr", "stdout"]) := by
  refine ⟨?_, ?_, ?_, ?_⟩
  · rw [lcfgOf_OutputPaths]
    exact sortStrings_sorted _
  · rw [lcfgOf_OutputPaths]
    exact (sortStrings_perm _).nodup_iff.mpr (collectOutputs_nodup _)
  · intro s
    rw [lcfgOf_OutputPaths, (sortStrings_perm _).mem_iff, collectOutputs_mem, localConf_Outputs]
    rfl
  · intro lg lc d
    rw [lcfgOf_OutputPaths]
    show sortStrings (collectOutputs ["stdout", "stdout", "stderr"]).1 = ["stderr", "stdout"]
    decide

/-- C2: when the outputs list of the Config is empty, the normal and the error
output list that setupLogging assembles are both exactly `["stdout"]`. -/
theorem empty_outputs_default_stdout (r₁ r₂ : RangeOrder) (l : Logger)
    (h : l.Conf.Outputs = []) :
    (lcfgOf r₁ r₂ l).OutputPaths = ["stdout"] ∧
    (lcfgOf r₁ r₂ l).ErrorOutputPaths = ["stdout"] := by
  have hl : (localConf l).Outputs = [StdOutLogOutput] := by
    rw [localConf_Outputs, if_pos h]
  rw [lcfgOf_OutputPaths, lcfgOf_ErrorOutputPaths, hl]
  exact ⟨by decide, by decide⟩

theorem empty_outputs_default_stdout_witness :
    (Logger.mk none none ⟨[], true⟩).Conf.Outputs = [] ∧
    (lcfgOf RangeOrder.stored RangeOrder.reversed
      (Logger.mk none none ⟨[], true⟩)).OutputPaths = ["stdout"] ∧
    (lcfgOf RangeOrder.stored RangeOrder.reversed
      (Logger.mk none none ⟨[], true⟩)).ErrorOutputPaths = ["stdout"] :=
  ⟨rfl, empty_outputs_default_stdout RangeOrder.stored RangeOrder.reversed _ rfl⟩

/-- C3: for every Config, and whatever order each of the two maps is iterated
in, the lists `lcfg.OutputPaths` and `lcfg.ErrorOutputPaths` that setupLogging
assembles are the same sequence. -/
theorem outputPaths_eq_errorOutputPaths (r₁ r₂ : RangeOrder) (l : Logger) :
    (lcfgOf r₁ r₂ l).OutputPaths = (lcfgOf r₁ r₂ l).ErrorOutputPaths := by
  rw [lcfgOf_OutputPaths, lcfgOf_ErrorOutputPaths]

/-- C4: the level of the settings that setupLogging assembles is debug when
`Debug` is true and info when it is false, whatever the outputs are. -/
theorem level_of_debug (r₁ r₂ : RangeOrder) (l : Logger) :
    (lcfgOf r₁ r₂ l).Level =
      if l.Conf.Debug = true then Level.DebugLevel else Level.InfoLevel := by
  unfold lcfgOf
  rw [assemble_Level, localConf_Debug]

/-- C5: evaluation of a failing call on a configured Logger. The default logger
holds a handle; after its `Conf` names a file that cannot be opened,
setupLogging returns the error of `Build` and has stored the nil pointer that
`Build` returned in `l.logger`, while `l.loggerConfig` keeps its old value. -/
theorem failed_setup_clears_logger :
    defaultLogger.logger = some ⟨1⟩ ∧
    fileLogger.logger = some ⟨1⟩ ∧
    (setupLogging buildStdOnly RangeOrder.stored RangeOrder.stored fileLogger
      Process.start).2.2 = some (.leaf "couldn't open sink") ∧
    (setupLogging buildStdOnly RangeOrder.stored RangeOrder.stored fileLogger
      Process.start).1.logger = none ∧
    (setupLogging buildStdOnly RangeOrder.stored RangeOrder.stored fileLogger
      Process.start).1.loggerConfig = fileLogger.loggerConfig := by
  decide

/-- C6: setupLogging returns an error exactly when `Build`, called on the
assembled settings, fails; the error returned is the error of that
construction, so it wraps the very causes the construction's error wraps; and
when `Build` succeeds the returned error is nil. -/
theorem setupLogging_returns_build_error (build : ZapConfig → BuildResult)
    (r₁ r₂ : RangeOrder) (l : Logger) (p : Process) :
    (setupLogging build r₁ r₂ l p).2.2 = (build (lcfgOf r₁ r₂ l)).err ∧
    ((setupLogging build r₁ r₂ l p).2.2 ≠ none ↔
      ∃ lg e, build (lcfgOf r₁ r₂ l) = BuildResult.fail lg e) ∧
    wrappedCauses (setupLogging build r₁ r₂ l p).2.2
      = wrappedCauses (build (lcfgOf r₁ r₂ l)).err ∧
    (match build (lcfgOf r₁ r₂ l) with
      | .ok _ => (setupLogging build r₁ r₂ l p).2.2 = none
      | .fail _ e => (setupLogging build r₁ r₂ l p).2.2 = some e) := by
  rw [setupLogging_eq]
  cases build (lcfgOf r₁ r₂ l) <;> simp [BuildResult.err]

/-- C6 at a failing input: the file of `fileLogger` cannot be opened, `Build`
fails with an error wrapping the error of the failed `open`, and setupLogging
returns that error, which wraps the underlying cause. -/
theorem setupLogging_returns_build_error_witness :
    (setupLogging buildWrapping RangeOrder.stored RangeOrder.stored fileLogger
      Process.start).2.2
      = some (GoError.wrap "couldn't open sink" (GoError.leaf "no such file or directory")) ∧
    wrappedCauses (setupLogging buildWrapping RangeOrder.stored RangeOrder.stored fileLogger
      Process.start).2.2 = [GoError.leaf "no such file or directory"] ∧
    (GoError.wrap "couldn't open sink" (GoError.leaf "no such file or directory")).wraps
      (GoError.leaf "no such file or directory") :=
  ⟨(setupLogging_returns_build_error buildWrapping RangeOrder.stored RangeOrder.stored
      fileLogger Process.start).1.trans (by decide),
    (setupLogging_returns_build_error buildWrapping RangeOrder.stored RangeOrder.stored
      fileLogger Process.start).2.2.1.trans (by decide),
    by decide⟩

/-- C7: evaluation on the outputs `["default"]`. The name is kept as it is:
the assembled output list is `["default"]`, it does not hold "stderr", and it
differs from the list assembled for `["stderr"]`. -/
theorem default_output_kept_as_path (r₁ r₂ : RangeOrder) (d : Bool) :
    (lcfgOf r₁ r₂ ⟨none, none, ⟨["default"], d⟩⟩).OutputPaths = ["default"] ∧
    StdErrLogOutput ∉ (lcfgOf r₁ r₂ ⟨none, none, ⟨["default"], d⟩⟩).OutputPaths ∧
    (lcfgOf r₁ r₂ ⟨none, none, ⟨["stderr"], d⟩⟩).OutputPaths = ["stderr"] := by
  have h₁ : (lcfgOf r₁ r₂ ⟨none, none, ⟨["default"], d⟩⟩).OutputPaths = ["default"] := by
    rw [lcfgOf_OutputPaths]
    show sortStrings (collectOutputs ["default"]).1 = ["default"]
    decide
  refine ⟨h₁, ?_, ?_⟩
  · rw [h₁]
    decide
  · rw [lcfgOf_OutputPaths]
    show sortStrings (collectOutputs ["stderr"]).1 = ["stderr"]
    decide

/-- C8: a call of setupLogging that returns no error has emitted exactly one
record, through the logger that `Build` has just returned and at info level; a
call that returns an error has emitted none. -/
theorem one_info_record_on_success (build : ZapConfig → BuildResult)
    (r₁ r₂ : RangeOrder) (l : Logger) (p : Process) :
    match setupLogging build r₁ r₂ l p with
    | (l', p', none) =>
      ∃ lg, build (lcfgOf r₁ r₂ l) = BuildResult.ok lg ∧ l'.logger = some lg ∧
        p'.records = p.records ++ [⟨lg, Level.InfoLevel, "success to init logger of zap"⟩]
    | (_, p', some _) => p'.records = p.records := by
  rw [setupLogging_eq]
  cases build (lcfgOf r₁ r₂ l) <;> cases l.Conf.Debug <;> simp

/-- C9: after setupLogging the tracing flag of the RPC transport is the flag
before the call OR `Config.Debug`, whether the call succeeds or fails. -/
theorem tracing_flag_after_setup (build : ZapConfig → BuildResult)
    (r₁ r₂ : RangeOrder) (l : Logger) (p : Process) :
    (setupLogging build r₁ r₂ l p).2.1.grpcEnableTracing =
      (p.grpcEnableTracing || l.Conf.Debug) := by
  rw [setupLogging_eq]
  cases build (lcfgOf r₁ r₂ l) <;> cases l.Conf.Debug <;> simp

/-- C10: a first call of setupLogging leaves `Logger.Conf` as it was, and a
second call on the resulting Logger assembles the same settings (output list,
error-output list and level) as the first and hands them to `Build`, whatever
the iteration orders and whatever `Build` did in the first call. -/
theorem second_setup_assembles_same (build build₂ : ZapConfig → BuildResult)
    (r₁ r₂ r₃ r₄ : RangeOrder) (l : Logger) (p : Process) :
    (setupLogging build r₁ r₂ l p).1.Conf = l.Conf ∧
    (lcfgOf r₃ r₄ (setupLogging build r₁ r₂ l p).1).OutputPaths
      = (lcfgOf r₁ r₂ l).OutputPaths ∧
    (lcfgOf r₃ r₄ (setupLogging build r₁ r₂ l p).1).ErrorOutputPaths
      = (lcfgOf r₁ r₂ l).ErrorOutputPaths ∧
    (lcfgOf r₃ r₄ (setupLogging build r₁ r₂ l p).1).Level = (lcfgOf r₁ r₂ l).Level ∧
    (setupLogging build₂ r₃ r₄ (setupLogging build r₁ r₂ l p).1
      (setupLogging build r₁ r₂ l p).2.1).2.2 = (build₂ (lcfgOf r₁ r₂ l)).err := by
  have hc : (setupLogging build r₁ r₂ l p).1.Conf = l.Conf := by
    rw [setupLogging_eq]
    cases build (lcfgOf r₁ r₂ l) <;> rfl
  have hl : localConf (setupLogging build r₁ r₂ l p).1 = localConf l := by
    unfold localConf
    simp only [hc]
  have he : lcfgOf r₃ r₄ (setupLogging build r₁ r₂ l p).1 = lcfgOf r₁ r₂ l :=
    lcfgOf_congr r₃ r₄ r₁ r₂ hl
  refine ⟨hc, by rw [he], by rw [he], by rw [he], ?_⟩
  rw [setupLogging_eq build₂, he]
  cases build₂ (lcfgOf r₁ r₂ l) <;> rfl

end GoLogger
